import Mathlib

/-!
Verification of the request-orchestration core of mockup-magic-pro.

The repository is a browser client that composes text prompts for a remote
image-generation capability, fans out staggered concurrent batch jobs,
retries transient failures with exponential backoff, and maintains a store
of draft/upscaled results.  The definitions below are a shallow embedding
of the relevant code:

* `src/services/geminiService.ts` — `retry`, the prompt composition inside
  `generateMockup`, and `analyzeImageForPrompts`;
* `src/App.tsx` — `handleGenerateBatch`, `handleUpscale`, `removePrompt`,
  `addEmptyPrompt`, and the constant default settings.

Remote I/O (the Gemini API call itself) is modelled by explicit outcome
parameters: an operation is a function from its invocation index (or its
request value) to an `Except` result, so that retries, per-job failure and
response shapes can be quantified over.  `crypto.randomUUID()` and
`Date.now()` are modelled by explicitly passed identifier streams and
timestamps; their freshness is a hypothesis where a claim needs it.
-/

set_option maxRecDepth 40000

namespace MockupMagic

/-! ## Substring infrastructure

TypeScript's `String.prototype.includes` and the spec's talk of text
"containing" language are modelled by list-infix containment on the
underlying character data. -/

/-- Whether the character list h starts with the character list n. -/
def strStartsWith : List Char → List Char → Bool
  | [], _ => true
  | _ :: _, [] => false
  | c :: n, d :: h => if c = d then strStartsWith n h else false

/-- Whether the character list n occurs contiguously inside h (the scan
underlying JavaScript's String.prototype.includes). -/
def strOccurs (n : List Char) : List Char → Bool
  | [] => n.isEmpty
  | d :: h => strStartsWith n (d :: h) || strOccurs n h

/-- strStartsWith decides list-prefix containment. -/
lemma strStartsWith_iff : ∀ (n h : List Char), strStartsWith n h = true ↔ n <+: h
  | [], h => by simp [strStartsWith]
  | _ :: _, [] => by simp [strStartsWith]
  | c :: n, d :: h => by
    rw [strStartsWith]
    by_cases hcd : c = d
    · rw [if_pos hcd, strStartsWith_iff n h, List.cons_prefix_cons]
      simp [hcd]
    · rw [if_neg hcd]
      simp [List.cons_prefix_cons, hcd]

/-- strOccurs decides list-infix containment. -/
lemma strOccurs_iff : ∀ (n h : List Char), strOccurs n h = true ↔ n <:+: h
  | n, [] => by
    rw [strOccurs, List.isEmpty_iff, List.infix_nil]
  | n, d :: h => by
    rw [strOccurs, Bool.or_eq_true, strStartsWith_iff, strOccurs_iff n h, List.infix_cons_iff]

/-- ContainsSub n h holds when the string n occurs contiguously inside h,
as with JavaScript's h.includes(n). -/
def ContainsSub (n h : String) : Prop := n.data <:+: h.data

instance (n h : String) : Decidable (ContainsSub n h) :=
  decidable_of_iff _ (strOccurs_iff n.data h.data)

/-- WordFree w s holds when the word w does not occur anywhere in s. -/
def WordFree (w s : String) : Prop := ¬ ContainsSub w s

instance (w s : String) : Decidable (WordFree w s) := instDecidableNot

/-! ## Data model (src/types.ts)

The TypeScript string-union types (FrameStyle, LightingStyle, WallTexture,
PrintSize) are erased at runtime; they are modelled as `String` together
with the explicit option lists from `App.tsx` where a claim needs the
valid values. -/

/-- GenerationSettings, from src/types.ts. -/
structure GenerationSettings where
  prompt : String
  negativePrompt : String
  count : Nat
  aspectRatio : String
  imageSize : String
  frameStyle : String
  lighting : String
  wallTexture : String
  printSize : String
deriving Repr, DecidableEq

/-- MockupResult, from src/types.ts (isHighRes is optional there and
defaults to a falsy value; it is modelled as Bool). -/
structure MockupResult where
  id : String
  imageUrl : String
  prompt : String
  createdAt : Nat
  isHighRes : Bool
deriving Repr, DecidableEq

/-- An editable prompt entry, from the App.tsx state
`Array<(id, text, isRegenerating?)>`. -/
structure PromptEntry where
  id : String
  text : String
  isRegenerating : Bool
deriving Repr, DecidableEq

/-- INITIAL_PRESETS from App.tsx. -/
def INITIAL_PRESETS : List String :=
  [ "A sun-drenched industrial loft wall with harsh shadows and dust motes",
    "A moody, dimly lit art gallery with a single spotlight hitting the frame",
    "A gritty subway station wall with peeling posters and fluorescent hum" ]

/-- FRAME_STYLES from App.tsx. -/
def FRAME_STYLES : List String :=
  ["Auto", "None", "Sleek Black", "Modern White", "Natural Oak", "Classic Gold", "Industrial Metal"]

/-- LIGHTING_STYLES from App.tsx. -/
def LIGHTING_STYLES : List String :=
  ["Auto", "Natural Daylight", "Soft Morning", "Golden Hour", "Studio Lighting", "Moody Dim"]

/-- WALL_TEXTURES from App.tsx. -/
def WALL_TEXTURES : List String :=
  ["Auto", "Clean Drywall", "Smooth Plaster", "Exposed Brick", "Raw Concrete", "Wooden Paneling"]

/-- PRINT_SIZES from App.tsx. -/
def PRINT_SIZES : List String := ["A1", "A2", "A3", "A4"]

/-- DEFAULT_SETTINGS from App.tsx. -/
def DEFAULT_SETTINGS : GenerationSettings :=
  { prompt := "A sun-drenched industrial loft wall with harsh shadows and dust motes"
    negativePrompt := "people, animals, text, watermark, blurry, low quality, distortion, ugly, 3d render, plastic look"
    count := 1
    aspectRatio := "3:4"
    imageSize := "1K"
    frameStyle := "Auto"
    lighting := "Auto"
    wallTexture := "Auto"
    printSize := "A3" }

/-! ## Retry policy (src/services/geminiService.ts, retry)

The wrapped operation `fn` is modelled as a function from the 0-based
attempt index to an `Except`: the TypeScript closure may behave
differently on successive invocations.  An error is modelled by the
string the code classifies on (`e.toString() + JSON.stringify(e)`).
`await wait(delay)` is modelled by accounting the waited milliseconds in
the returned trace. -/

/-- Transient-error classification from retry: the error string indicates
HTTP 503 / overload / UNAVAILABLE or HTTP 429. -/
def isTransientError (e : String) : Bool :=
  decide (ContainsSub "503" e) || decide (ContainsSub "overloaded" e) ||
    decide (ContainsSub "UNAVAILABLE" e) || decide (ContainsSub "429" e)

/-- Observable outcome of a retry run: final result, total milliseconds
spent in backoff waits, and how many times the operation was invoked. -/
structure RetryTrace (α : Type) where
  result : Except String α
  totalDelay : Nat
  calls : Nat
deriving Repr

/-- The `for (let i = 0; i < retries; i++)` loop body of retry, entered at
attempt index i.  Success returns at once; a terminal error or the last
attempt rethrows; otherwise the loop waits baseDelay * 2^i and continues.
The trailing `throw new Error("Max retries reached")` is reached only when
the loop body never runs (retries = 0). -/
def retryLoop (fn : Nat → Except String α) (retries baseDelay : Nat) (i : Nat) :
    RetryTrace α :=
  if _h : i < retries then
    match fn i with
    | Except.ok a => ⟨Except.ok a, 0, 1⟩
    | Except.error e =>
      if !isTransientError e || i = retries - 1 then ⟨Except.error e, 0, 1⟩
      else
        let rest := retryLoop fn retries baseDelay (i + 1)
        ⟨rest.result, baseDelay * 2 ^ i + rest.totalDelay, rest.calls + 1⟩
  else ⟨Except.error "Max retries reached", 0, 0⟩
termination_by retries - i

/-- retry from geminiService.ts; the source defaults are retries = 3 and
baseDelay = 2000. -/
def retry (fn : Nat → Except String α) (retries baseDelay : Nat) : RetryTrace α :=
  retryLoop fn retries baseDelay 0

/-! ## Prompt composition (src/services/geminiService.ts, generateMockup)

The local constants and the final template literal of `generateMockup`
lines 184–231, reproduced exactly (template-literal newlines and
indentation included). -/

/-- qualityPrefix from generateMockup. -/
def qualityPrefix : String :=
  "\n    Award-winning editorial photography, shot on 35mm film, Kodak Portra 400 aesthetic.\n    Features: Heavy natural film grain, slight chromatic aberration, organic color grading, imperfect lens characteristics.\n    The final image must look like a raw, unpolished photograph, not a 3D render.\n    8k resolution, hyperrealistic, detailed texture.\n  "

/-- physicalInteraction from generateMockup. -/
def physicalInteraction : String :=
  "Ensure the environment's lighting interacts with the artwork. Cast realistic shadows ONTO the print surface. If there is glass, show subtle reflections OVER the artwork."

/-- sizeContext from generateMockup: `settings.printSize ? settings.printSize : "A3"`
(an empty string is the only falsy String value). -/
def sizeContext (s : GenerationSettings) : String :=
  if s.printSize = "" then "A3" else s.printSize

/-- frameContext from generateMockup: the three-way branch on frameStyle. -/
def frameContext (s : GenerationSettings) : String :=
  if s.frameStyle = "None" then
    "The attached image is taped or pasted directly onto the wall as a " ++ sizeContext s ++
      " poster. Show paper texture, slight curling at corners, and surface shadows falling across the image."
  else if s.frameStyle = "Auto" then
    "The attached image is professionally framed in a style that perfectly matches the environment's aesthetic (" ++
      sizeContext s ++ " size). Include realistic glass reflections and frame shadows."
  else
    "The attached image is physically framed in a " ++ s.frameStyle ++ " frame (" ++
      sizeContext s ++ " size) hanging on the wall. Include realistic glass reflections and frame shadows."

/-- envContext from generateMockup: lighting then wall material, each only
when not "Auto"; when both are "Auto" the inference sentence is used. -/
def envContext (s : GenerationSettings) : String :=
  let e :=
    (if s.lighting ≠ "Auto" then "Lighting Condition: " ++ s.lighting ++ ". " else "") ++
      (if s.wallTexture ≠ "Auto" then "Wall Material: " ++ s.wallTexture ++ ". " else "")
  if e = "" then
    "Lighting and Wall Material should be inferred naturally from the scene description."
  else e

/-- The COLOR clause plus closing whitespace of the finalPrompt template. -/
def colorClause : String :=
  "\n    COLOR: Apply a cohesive cinematic color grade that warps the colors of the inserted artwork slightly to match the ambient light temperature of the room. The artwork should not look like a digital overlay.\n  "

/-- The finalPrompt template literal of generateMockup, before the
negative-prompt suffix. -/
def finalPromptBase (s : GenerationSettings) : String :=
  "\n    " ++ qualityPrefix ++ " \n    SCENE: " ++ s.prompt ++ ". \n    DETAILS: " ++
    envContext s ++ " \n    PLACEMENT: " ++ frameContext s ++ " \n    PHYSICS: " ++
    physicalInteraction ++ colorClause

/-- finalPrompt from generateMockup: the template plus, when the negative
prompt trims non-empty, the Do-NOT-include suffix.  The source condition
`negativePrompt && negativePrompt.trim().length > 0` holds exactly when
the string has some non-whitespace character, which is how it is stated
here. -/
def finalPrompt (s : GenerationSettings) : String :=
  if s.negativePrompt.data.any (fun c => !c.isWhitespace) then
    finalPromptBase s ++ " Do NOT include: " ++ s.negativePrompt ++ "."
  else finalPromptBase s

/-! ## Suggestion engine (src/services/geminiService.ts, analyzeImageForPrompts)

The remote analysis call is modelled by its outcome:
`Except.error e` when the call (after its retries) throws, and
`Except.ok parsed` when it returns text, where `parsed` is the result of
`JSON.parse(response.text || "[]")` — `none` when that parse throws, and
`some j` otherwise.  Both throwing cases are caught by the source's
try/catch; a parsed non-array value is not. -/

/-- A minimal JSON value model, enough to distinguish arrays (the expected
shape) from every other shape. -/
inductive Json where
  | str (s : String)
  | num (n : Int)
  | bool (b : Bool)
  | null
  | arr (elems : List Json)
  | obj
deriving Repr

/-- The fixed fallback suggestions returned by the catch block of
analyzeImageForPrompts. -/
def fallbackSuggestions : List Json :=
  [ Json.str "A modern gallery wall with spot lighting",
    Json.str "A cozy bohemian bedroom with plants",
    Json.str "A professional office space with sleek furniture",
    Json.str "An industrial loft with exposed brick" ]

/-- analyzeImageForPrompts: throws when no API key is configured; returns
the fallback when the remote call throws or its body fails to parse as
JSON; returns `suggestions.slice(0, 4)` when the body parses to an array;
returns the empty array when it parses to any non-array value. -/
def analyzeImageForPrompts (apiKey : Option String)
    (call : Except String (Option Json)) : Except String (List Json) :=
  match apiKey with
  | none => Except.error "API Key not found. Please set GEMINI_API_KEY environment variable."
  | some _ =>
    Except.ok <|
      match call with
      | Except.error _ => fallbackSuggestions
      | Except.ok none => fallbackSuggestions
      | Except.ok (some (Json.arr elems)) => elems.take 4
      | Except.ok (some _) => []

/-! ## Batch orchestration (src/App.tsx, handleGenerateBatch)

Each job maps a prompt entry at index i to a generation call.  The remote
outcome of `generateMockup(sourceImage, batchSettings)` for job i is
modelled by `gen i settingsForJob`; on success `generateMockup` returns a
non-empty list of data-URI image strings (it throws when every slot
fails), which the job maps to MockupResults.  `crypto.randomUUID()` is
modelled by the identifier stream `ids job slot` and `Date.now()` by the
`now` parameter. -/

/-- The delay the job at index i awaits before its generation call: the
source awaits a single 2500 ms timeout when index > 0, and nothing for
index 0.  All map callbacks are created together at batch start, so this
is each job's start offset from batch start. -/
def batchJobDelay (i : Nat) : Nat := if 0 < i then 2500 else 0

/-- The per-job settings of handleGenerateBatch: the shared settings with
this entry's prompt text, count 1, and the round-robin selected frame,
lighting and texture (`selected[index % selected.length]`).  The getD
default is never used: the selection lists are non-empty UI invariants. -/
def batchSettings (settings : GenerationSettings)
    (frames lighting textures : List String) (p : PromptEntry) (i : Nat) :
    GenerationSettings :=
  { settings with
    prompt := p.text
    count := 1
    frameStyle := frames.getD (i % frames.length) "Auto"
    lighting := lighting.getD (i % lighting.length) "Auto"
    wallTexture := textures.getD (i % textures.length) "Auto" }

/-- One batch job: on success every returned image becomes a MockupResult
with a fresh identifier, the entry's prompt, the shared timestamp, and the
high-res flag exactly when the base settings' imageSize is "4K"; a failed
job contributes the empty list. -/
def batchJob (settings : GenerationSettings)
    (frames lighting textures : List String)
    (gen : Nat → GenerationSettings → Except String (List String))
    (ids : Nat → Nat → String) (now : Nat) (i : Nat) (p : PromptEntry) :
    List MockupResult :=
  match gen i (batchSettings settings frames lighting textures p i) with
  | Except.ok images =>
    images.mapIdx fun k img =>
      { id := ids i k
        imageUrl := img
        prompt := p.text
        createdAt := now
        isHighRes := settings.imageSize == "4K" }
  | Except.error _ => []

/-- handleGenerateBatch: runs one job per prompt entry, flattens the
per-job result lists in job-index order, and throws the batch-empty error
when the flat list is empty. -/
def handleGenerateBatch (settings : GenerationSettings)
    (frames lighting textures : List String)
    (gen : Nat → GenerationSettings → Except String (List String))
    (ids : Nat → Nat → String) (now : Nat) (prompts : List PromptEntry) :
    Except String (List MockupResult) :=
  if (prompts.mapIdx (batchJob settings frames lighting textures gen ids now)).flatten.length = 0
  then Except.error "Batch generation yielded no results."
  else Except.ok (prompts.mapIdx (batchJob settings frames lighting textures gen ids now)).flatten

/-! ## Upscale (src/App.tsx, handleUpscale) -/

/-- The upscaleSettings of handleUpscale: the shared settings with the
result's prompt, count 1, imageSize "4K", and frame, lighting and texture
forced to "Auto". -/
def upscaleSettings (settings : GenerationSettings) (r : MockupResult) :
    GenerationSettings :=
  { settings with
    prompt := r.prompt
    count := 1
    imageSize := "4K"
    frameStyle := "Auto"
    lighting := "Auto"
    wallTexture := "Auto" }

/-- handleUpscale: on success prepends a new result (fresh identifier, the
same prompt, current timestamp, isHighRes true, first returned image) to
the result store; on failure the store is left unchanged and the error is
surfaced (`alert("Upscale failed.")`).  `images.headD ""` models
`images[0]`; generateMockup returns a non-empty list on success. -/
def handleUpscale (settings : GenerationSettings) (r : MockupResult)
    (gen : GenerationSettings → Except String (List String))
    (newId : String) (now : Nat) (results : List MockupResult) :
    Except String (List MockupResult) :=
  match gen (upscaleSettings settings r) with
  | Except.ok images =>
    Except.ok
      ({ id := newId
         imageUrl := images.headD ""
         prompt := r.prompt
         createdAt := now
         isHighRes := true } :: results)
  | Except.error _ => Except.error "Upscale failed."

/-! ## Prompt-entry list operations (src/App.tsx) -/

/-- removePrompt: filters the entry with the given identifier out, but
only when more than one entry remains. -/
def removePrompt (prompts : List PromptEntry) (id : String) : List PromptEntry :=
  if 1 < prompts.length then prompts.filter fun p => p.id ≠ id
  else prompts

/-- addEmptyPrompt: appends a new entry with a fresh identifier and the
placeholder text. -/
def addEmptyPrompt (prompts : List PromptEntry) (newId : String) : List PromptEntry :=
  prompts ++ [{ id := newId, text := "Describe a new environment...", isRegenerating := false }]

/-! ## Lemmas: retry policy -/

/-- Outside the loop bound the trailing throw is reached. -/
lemma retryLoop_of_ge (fn : Nat → Except String α) {retries : Nat} (baseDelay : Nat)
    {i : Nat} (h : retries ≤ i) :
    retryLoop fn retries baseDelay i = ⟨Except.error "Max retries reached", 0, 0⟩ := by
  unfold retryLoop
  simp [Nat.not_lt.mpr h]

/-- A successful attempt returns at once. -/
lemma retryLoop_ok (fn : Nat → Except String α) {retries : Nat} (baseDelay : Nat)
    {i : Nat} {a : α} (h : i < retries) (hfn : fn i = Except.ok a) :
    retryLoop fn retries baseDelay i = ⟨Except.ok a, 0, 1⟩ := by
  unfold retryLoop
  simp [h, hfn]

/-- A terminal (non-transient) error is rethrown at once, with no wait. -/
lemma retryLoop_terminal (fn : Nat → Except String α) {retries : Nat} (baseDelay : Nat)
    {i : Nat} {e : String} (h : i < retries) (hfn : fn i = Except.error e)
    (ht : isTransientError e = false) :
    retryLoop fn retries baseDelay i = ⟨Except.error e, 0, 1⟩ := by
  unfold retryLoop
  simp [h, hfn, ht]

/-- The last attempt rethrows its error, with no wait. -/
lemma retryLoop_last (fn : Nat → Except String α) {retries : Nat} (baseDelay : Nat)
    {i : Nat} {e : String} (h : i < retries) (hlast : i = retries - 1)
    (hfn : fn i = Except.error e) :
    retryLoop fn retries baseDelay i = ⟨Except.error e, 0, 1⟩ := by
  subst hlast
  unfold retryLoop
  rw [dif_pos h]
  simp [hfn]

/-- A transient error with attempts remaining waits baseDelay * 2^i and
continues at the next attempt index. -/
lemma retryLoop_step (fn : Nat → Except String α) {retries : Nat} (baseDelay : Nat)
    {i : Nat} {e : String} (h : i < retries) (hne : i ≠ retries - 1)
    (hfn : fn i = Except.error e) (ht : isTransientError e = true) :
    retryLoop fn retries baseDelay i =
      ⟨(retryLoop fn retries baseDelay (i + 1)).result,
        baseDelay * 2 ^ i + (retryLoop fn retries baseDelay (i + 1)).totalDelay,
        (retryLoop fn retries baseDelay (i + 1)).calls + 1⟩ := by
  conv_lhs => unfold retryLoop
  simp [h, hfn, ht, hne]

/-- Arithmetic of accumulated exponential backoff. -/
lemma delay_step (b i m : Nat) (h : i + 1 ≤ m) :
    b * 2 ^ i + b * (2 ^ m - 2 ^ (i + 1)) = b * (2 ^ m - 2 ^ i) := by
  have h1 : (2 : Nat) ^ (i + 1) ≤ 2 ^ m := Nat.pow_le_pow_right (by omega) h
  have h2 : (2 : Nat) ^ (i + 1) = 2 * 2 ^ i := by
    rw [Nat.pow_succ]; omega
  rw [← Nat.mul_add]
  congr 1
  omega

/-- When the attempts from i up to i + k fail transiently and attempt
i + k succeeds, the loop returns that success after k retries, having
waited baseDelay * 2^j at each failed attempt j. -/
lemma retryLoop_ok_after (fn : Nat → Except String α) (retries baseDelay : Nat)
    {a : α} :
    ∀ (k i : Nat), i + k < retries →
      (∀ j, i ≤ j → j < i + k → ∃ e, fn j = Except.error e ∧ isTransientError e = true) →
      fn (i + k) = Except.ok a →
      retryLoop fn retries baseDelay i =
        ⟨Except.ok a, baseDelay * (2 ^ (i + k) - 2 ^ i), k + 1⟩ := by
  intro k
  induction k with
  | zero =>
    intro i hlt _ hok
    rw [retryLoop_ok fn baseDelay (by omega) (by simpa using hok)]
    simp
  | succ k ih =>
    intro i hlt htr hok
    obtain ⟨e, hfe, hte⟩ := htr i (le_refl i) (by omega)
    rw [retryLoop_step fn baseDelay (by omega) (by omega) hfe hte]
    have hrest := ih (i + 1) (by omega)
      (fun j hj1 hj2 => htr j (by omega) (by omega))
      (by have h : i + 1 + k = i + (k + 1) := by omega
          rw [h]; exact hok)
    rw [hrest]
    have harith : baseDelay * 2 ^ i + baseDelay * (2 ^ (i + 1 + k) - 2 ^ (i + 1)) =
        baseDelay * (2 ^ (i + (k + 1)) - 2 ^ i) := by
      have h : i + 1 + k = i + (k + 1) := by omega
      rw [h]
      exact delay_step baseDelay i (i + (k + 1)) (by omega)
    exact congrArg (fun d => RetryTrace.mk (Except.ok a) d (k + 1 + 1)) harith

/-- When every attempt from i to the last fails transiently, the loop
fails with the last attempt's error after retries - i invocations. -/
lemma retryLoop_exhaust (fn : Nat → Except String α) (retries baseDelay : Nat)
    {e : String} :
    ∀ (n i : Nat), retries - 1 - i = n → i < retries →
      (∀ j, i ≤ j → j < retries → ∃ e', fn j = Except.error e' ∧ isTransientError e' = true) →
      fn (retries - 1) = Except.error e →
      retryLoop fn retries baseDelay i =
        ⟨Except.error e, baseDelay * (2 ^ (retries - 1) - 2 ^ i), retries - i⟩ := by
  intro n
  induction n with
  | zero =>
    intro i hn hi _ hlast
    have hieq : i = retries - 1 := by omega
    have h1 : baseDelay * (2 ^ (retries - 1) - 2 ^ i) = 0 := by
      rw [hieq]; simp
    have h2 : retries - i = 1 := by omega
    rw [retryLoop_last fn baseDelay hi hieq (by rw [hieq]; exact hlast), h1, h2]
  | succ n ih =>
    intro i hn hi htr hlast
    obtain ⟨e', hfe, hte⟩ := htr i (le_refl i) (by omega)
    rw [retryLoop_step fn baseDelay hi (by omega) hfe hte]
    have hrest := ih (i + 1) (by omega) (by omega)
      (fun j hj1 hj2 => htr j (by omega) hj2) hlast
    rw [hrest]
    have h1 : baseDelay * 2 ^ i + baseDelay * (2 ^ (retries - 1) - 2 ^ (i + 1)) =
        baseDelay * (2 ^ (retries - 1) - 2 ^ i) :=
      delay_step baseDelay i (retries - 1) (by omega)
    have h2 : retries - (i + 1) + 1 = retries - i := by omega
    calc (⟨Except.error e,
            baseDelay * 2 ^ i + baseDelay * (2 ^ (retries - 1) - 2 ^ (i + 1)),
            retries - (i + 1) + 1⟩ : RetryTrace α)
        = ⟨Except.error e, baseDelay * (2 ^ (retries - 1) - 2 ^ i), retries - i⟩ := by
          rw [h1, h2]

/-- The operation is invoked at most retries - i more times from attempt i. -/
lemma retryLoop_calls_le (fn : Nat → Except String α) (retries baseDelay : Nat) :
    ∀ (n i : Nat), retries - i ≤ n →
      (retryLoop fn retries baseDelay i).calls ≤ retries - i := by
  intro n
  induction n with
  | zero =>
    intro i h
    rw [retryLoop_of_ge fn baseDelay (by omega)]
    exact (by omega : (0 : Nat) ≤ retries - i)
  | succ n ih =>
    intro i h
    by_cases hi : i < retries
    · match hfn : fn i with
      | Except.ok a =>
        rw [retryLoop_ok fn baseDelay hi hfn]
        exact (by omega : (1 : Nat) ≤ retries - i)
      | Except.error e =>
        by_cases hterm : isTransientError e = false
        · rw [retryLoop_terminal fn baseDelay hi hfn hterm]
          exact (by omega : (1 : Nat) ≤ retries - i)
        · by_cases hlast : i = retries - 1
          · rw [retryLoop_last fn baseDelay hi hlast hfn]
            exact (by omega : (1 : Nat) ≤ retries - i)
          · rw [retryLoop_step fn baseDelay hi hlast hfn (by simpa using hterm)]
            have hrec := ih (i + 1) (by omega)
            exact (by omega :
              (retryLoop fn retries baseDelay (i + 1)).calls + 1 ≤ retries - i)
    · rw [retryLoop_of_ge fn baseDelay (by omega)]
      exact (by omega : (0 : Nat) ≤ retries - i)

/-! ## Claim C4: retry policy semantics -/

/-- C4: for maxAttempts ≥ 1, retry invokes the operation at most
maxAttempts times; a terminal first error is propagated immediately with
no delay; when the first k attempts fail transiently and attempt k
succeeds, the success is returned after waiting baseDelayMs * 2^j before
the retry following each failed attempt j (total baseDelay * (2^k - 1));
when every attempt fails transiently, retry fails with the last observed
error; and in particular an operation failing transiently twice then
succeeding gives retry(op, 3, 100) the success value with total simulated
delay 100 + 200 = 300 ms. -/
theorem retry_policy_correct (fn : Nat → Except String α) (retries baseDelay : Nat)
    (hr : 1 ≤ retries) :
    (retry fn retries baseDelay).calls ≤ retries
    ∧ (∀ e, fn 0 = Except.error e → isTransientError e = false →
        retry fn retries baseDelay = ⟨Except.error e, 0, 1⟩)
    ∧ (∀ (a : α) k, k < retries →
        (∀ j, j < k → ∃ e, fn j = Except.error e ∧ isTransientError e = true) →
        fn k = Except.ok a →
        retry fn retries baseDelay = ⟨Except.ok a, baseDelay * (2 ^ k - 1), k + 1⟩)
    ∧ (∀ e, (∀ j, j < retries → ∃ e', fn j = Except.error e' ∧ isTransientError e' = true) →
        fn (retries - 1) = Except.error e →
        retry fn retries baseDelay =
          ⟨Except.error e, baseDelay * (2 ^ (retries - 1) - 1), retries⟩)
    ∧ (∀ (a : α) e₀ e₁, fn 0 = Except.error e₀ → isTransientError e₀ = true →
        fn 1 = Except.error e₁ → isTransientError e₁ = true → fn 2 = Except.ok a →
        retry fn 3 100 = ⟨Except.ok a, 300, 3⟩) := by
  refine ⟨?_, ?_, ?_, ?_, ?_⟩
  · simpa using retryLoop_calls_le fn retries baseDelay retries 0 (by omega)
  · intro e hfn ht
    exact retryLoop_terminal fn baseDelay (by omega) hfn ht
  · intro a k hk htr hok
    have h := retryLoop_ok_after fn retries baseDelay k 0 (by omega)
      (fun j _ hj2 => htr j (by simpa using hj2)) (by simpa using hok)
    simpa using h
  · intro e htr hlast
    have h := retryLoop_exhaust fn retries baseDelay (retries - 1) 0 (by omega) (by omega)
      (fun j hj1 hj2 => htr j hj2) hlast
    simpa using h
  · intro a e₀ e₁ h0 ht0 h1 ht1 h2
    have h := retryLoop_ok_after fn 3 100 2 0 (by omega)
      (fun j hj1 hj2 => by
        interval_cases j
        · exact ⟨e₀, h0, ht0⟩
        · exact ⟨e₁, h1, ht1⟩)
      (by simpa using h2)
    simpa using h

/-- C4 witness: an operation failing with a 503 error on its first two
attempts and succeeding on the third; retry(op, 3, 100) returns the
success with 300 ms of simulated backoff in 3 invocations. -/
theorem retry_policy_correct_witness :
    retry (fun i => if i < 2 then Except.error "503" else Except.ok 7) 3 100 =
      ⟨Except.ok 7, 300, 3⟩ :=
  (retry_policy_correct (fun i => if i < 2 then Except.error "503" else Except.ok 7)
    3 100 (by omega)).2.2.2.2 7 "503" "503" rfl (by decide) rfl (by decide) rfl

/-! ## Claim C10: retry with zero attempts -/

/-- C10: with the attempt budget 0 (the TypeScript retries ≤ 0: the
for-loop body never runs), retry fails with the "Max retries reached"
error having never invoked the operation; in general the operation is
invoked at most retries times. -/
theorem retry_zero_attempts (fn : Nat → Except String α) (retries baseDelay : Nat) :
    (retries = 0 → retry fn retries baseDelay =
      ⟨Except.error "Max retries reached", 0, 0⟩)
    ∧ (retry fn retries baseDelay).calls ≤ retries := by
  constructor
  · intro h
    subst h
    exact retryLoop_of_ge fn baseDelay (by omega)
  · simpa using retryLoop_calls_le fn retries baseDelay retries 0 (by omega)

/-- C10 witness: a concrete always-succeeding operation is never invoked
when the attempt budget is 0. -/
theorem retry_zero_attempts_witness :
    retry (fun _ => Except.ok (0 : Nat)) 0 1000 =
      ⟨Except.error "Max retries reached", 0, 0⟩
    ∧ (retry (fun _ => Except.ok (0 : Nat)) 0 1000).calls ≤ 0 :=
  ⟨(retry_zero_attempts (fun _ => Except.ok (0 : Nat)) 0 1000).1 rfl,
    (retry_zero_attempts (fun _ => Except.ok (0 : Nat)) 0 1000).2⟩

/-! ## Lemmas: indexed mapping -/

/-- mapIdx expressed by indexing into the list (any default works below
the length). -/
lemma mapIdx_eq_range_map (f : Nat → α → β) (l : List α) (d : α) :
    l.mapIdx f = (List.range l.length).map fun i => f i (l.getD i d) := by
  induction l generalizing f with
  | nil => rfl
  | cons a t ih =>
    rw [List.mapIdx_cons, List.length_cons, List.range_succ_eq_map]
    simp only [List.map_cons, List.getD_cons_zero, List.map_map]
    refine congrArg₂ _ rfl ?_
    rw [ih fun i b => f (i + 1) b]
    refine List.map_congr_left ?_
    intro i _
    simp [Nat.succ_eq_add_one]

/-! ## Claim C3: batch stagger delay -/

/-- C3 evaluation: the delay awaited before each job's generation call in
handleGenerateBatch is the constant 2500 ms for every index i > 0 (all
map callbacks start their timers together at batch start), so job 2
begins 2500 ms after batch start, not the cumulative 2 * 2500 ms the spec
describes. -/
theorem stagger_delay_constant :
    batchJobDelay 0 = 0 ∧ batchJobDelay 1 = 2500 ∧ batchJobDelay 2 = 2500 ∧
      batchJobDelay 3 = 2500 ∧ ¬ batchJobDelay 2 = 2 * 2500 := by
  refine ⟨rfl, rfl, rfl, rfl, ?_⟩
  decide

/-! ## Claim C8: round-robin constraint assignment -/

/-- C8: the job at index i is assigned frame, lighting and texture by
round-robin over the selection lists (selected[i % selected.length]); in
particular, with 2 selected frames, jobs 0, 2, 4 receive the first frame
and jobs 1, 3 the second. -/
theorem batch_round_robin (settings : GenerationSettings)
    (frames lighting textures : List String) (p : PromptEntry) (i : Nat)
    (hf : frames ≠ []) (hl : lighting ≠ []) (ht : textures ≠ []) :
    ((batchSettings settings frames lighting textures p i).frameStyle =
        frames.get ⟨i % frames.length, Nat.mod_lt i (List.length_pos.mpr hf)⟩
      ∧ (batchSettings settings frames lighting textures p i).lighting =
        lighting.get ⟨i % lighting.length, Nat.mod_lt i (List.length_pos.mpr hl)⟩
      ∧ (batchSettings settings frames lighting textures p i).wallTexture =
        textures.get ⟨i % textures.length, Nat.mod_lt i (List.length_pos.mpr ht)⟩)
    ∧ (∀ f₀ f₁, frames = [f₀, f₁] →
        (batchSettings settings frames lighting textures p 0).frameStyle = f₀
        ∧ (batchSettings settings frames lighting textures p 1).frameStyle = f₁
        ∧ (batchSettings settings frames lighting textures p 2).frameStyle = f₀
        ∧ (batchSettings settings frames lighting textures p 3).frameStyle = f₁
        ∧ (batchSettings settings frames lighting textures p 4).frameStyle = f₀) := by
  constructor
  · refine ⟨?_, ?_, ?_⟩
    · show frames.getD (i % frames.length) "Auto" = _
      rw [List.getD_eq_getElem frames "Auto" (Nat.mod_lt i (List.length_pos.mpr hf)),
        List.get_eq_getElem]
    · show lighting.getD (i % lighting.length) "Auto" = _
      rw [List.getD_eq_getElem lighting "Auto" (Nat.mod_lt i (List.length_pos.mpr hl)),
        List.get_eq_getElem]
    · show textures.getD (i % textures.length) "Auto" = _
      rw [List.getD_eq_getElem textures "Auto" (Nat.mod_lt i (List.length_pos.mpr ht)),
        List.get_eq_getElem]
  · intro f₀ f₁ hfr
    subst hfr
    refine ⟨?_, ?_, ?_, ?_, ?_⟩ <;> simp [batchSettings]

/-- C8 witness: a concrete batch over 2 selected frames. -/
theorem batch_round_robin_witness :
    (batchSettings DEFAULT_SETTINGS ["Sleek Black", "Natural Oak"] ["Auto"] ["Auto"]
        ⟨"p1", "a wall", false⟩ 2).frameStyle = "Sleek Black"
    ∧ (batchSettings DEFAULT_SETTINGS ["Sleek Black", "Natural Oak"] ["Auto"] ["Auto"]
        ⟨"p1", "a wall", false⟩ 3).frameStyle = "Natural Oak" :=
  ⟨((batch_round_robin DEFAULT_SETTINGS ["Sleek Black", "Natural Oak"] ["Auto"] ["Auto"]
      ⟨"p1", "a wall", false⟩ 2 (by simp) (by simp) (by simp)).2 "Sleek Black" "Natural Oak"
      rfl).2.2.1,
    ((batch_round_robin DEFAULT_SETTINGS ["Sleek Black", "Natural Oak"] ["Auto"] ["Auto"]
      ⟨"p1", "a wall", false⟩ 3 (by simp) (by simp) (by simp)).2 "Sleek Black" "Natural Oak"
      rfl).2.2.2.1⟩

/-! ## Claim C9: prompt-entry set invariant -/

/-- A Nodup list whose elements are all equal has at most one element. -/
lemma length_le_one_of_nodup_const {β : Type} {l : List β} {a : β}
    (h : l.Nodup) (hall : ∀ x ∈ l, x = a) : l.length ≤ 1 := by
  match l with
  | [] => simp
  | [x] => simp
  | x :: y :: t =>
    exfalso
    have hx := hall x (by simp)
    have hy := hall y (by simp)
    rw [List.nodup_cons] at h
    exact h.1 (by simp [hx, hy])

/-- Filtering one identifier out of an identifier-unique entry list drops
at most one element. -/
lemma filter_ne_length (l : List PromptEntry) (id : String)
    (h : (l.map PromptEntry.id).Nodup) :
    l.length - 1 ≤ (l.filter fun p => p.id ≠ id).length := by
  induction l with
  | nil => simp
  | cons a t ih =>
    rw [List.map_cons, List.nodup_cons] at h
    by_cases ha : a.id = id
    · have hall : ∀ p ∈ t, (fun p => decide (p.id ≠ id)) p = true := by
        intro p hp
        have : p.id ≠ id := fun hc => h.1 (by rw [← ha] at hc; exact hc ▸ List.mem_map_of_mem PromptEntry.id hp)
        simpa using this
      rw [List.filter_cons_of_neg (by simpa using ha), List.filter_eq_self.mpr hall]
      simp
    · rw [List.filter_cons_of_pos (by simpa using ha)]
      have := ih h.2
      simp only [List.length_cons]
      omega

/-- C9: the prompt-entry set never shrinks below one entry — removing the
sole remaining entry is rejected outright, and removal in general drops at
most the one matching entry — while adding always grows the set by exactly
one entry carrying the supplied fresh identifier, and identifier
uniqueness is preserved when that identifier is new. -/
theorem prompt_set_invariant (prompts : List PromptEntry) (id newId : String)
    (hne : prompts ≠ []) (hnodup : (prompts.map PromptEntry.id).Nodup) :
    (prompts.length = 1 → removePrompt prompts id = prompts)
    ∧ 1 ≤ (removePrompt prompts id).length
    ∧ (addEmptyPrompt prompts newId).length = prompts.length + 1
    ∧ ((addEmptyPrompt prompts newId).map PromptEntry.id).getLast? = some newId
    ∧ (newId ∉ prompts.map PromptEntry.id →
        ((addEmptyPrompt prompts newId).map PromptEntry.id).Nodup) := by
  refine ⟨?_, ?_, ?_, ?_, ?_⟩
  · intro h1
    simp [removePrompt, h1]
  · unfold removePrompt
    by_cases hlen : 1 < prompts.length
    · rw [if_pos hlen]
      have := filter_ne_length prompts id hnodup
      omega
    · rw [if_neg hlen]
      have : 0 < prompts.length := List.length_pos.mpr hne
      omega
  · simp [addEmptyPrompt]
  · simp only [addEmptyPrompt, List.map_append, List.map_cons, List.map_nil]
    exact List.getLast?_concat _
  · intro hfresh
    simp only [addEmptyPrompt, List.map_append, List.map_cons, List.map_nil]
    rw [List.nodup_append]
    exact ⟨hnodup, List.nodup_singleton _, by
      intro x hx hmem
      simp only [List.mem_singleton] at hmem
      exact hfresh (hmem ▸ hx)⟩

/-- C9 witness: a two-entry set with distinct identifiers. -/
theorem prompt_set_invariant_witness :
    1 ≤ (removePrompt [⟨"1", "a", false⟩, ⟨"2", "b", false⟩] "1").length
    ∧ (addEmptyPrompt [⟨"1", "a", false⟩, ⟨"2", "b", false⟩] "3").length = 3 := by
  have h := prompt_set_invariant [⟨"1", "a", false⟩, ⟨"2", "b", false⟩] "1" "3"
    (by simp) (by simp)
  exact ⟨h.2.1, h.2.2.1⟩

/-! ## Claim C7: upscale produces a fresh sibling result -/

/-- C7: a successful upscale of a draft result R prepends a new result to
the store carrying R's prompt, the supplied fresh identifier (distinct
from R's — crypto.randomUUID freshness), the Upscaled (isHighRes) flag and
the new timestamp, while its generation request forces frame, lighting and
texture to "Auto"; every previously stored result, in particular R itself,
is still in the store unchanged, in its old position after the new head. -/
theorem upscale_fresh_sibling (settings : GenerationSettings) (r : MockupResult)
    (gen : GenerationSettings → Except String (List String))
    (newId : String) (now : Nat) (store : List MockupResult)
    (img : String) (rest : List String)
    (hgen : gen (upscaleSettings settings r) = Except.ok (img :: rest))
    (hfresh : newId ≠ r.id) :
    handleUpscale settings r gen newId now store =
      Except.ok ((⟨newId, img, r.prompt, now, true⟩ : MockupResult) :: store)
    ∧ (⟨newId, img, r.prompt, now, true⟩ : MockupResult).prompt = r.prompt
    ∧ (⟨newId, img, r.prompt, now, true⟩ : MockupResult).id ≠ r.id
    ∧ (⟨newId, img, r.prompt, now, true⟩ : MockupResult).isHighRes = true
    ∧ (upscaleSettings settings r).frameStyle = "Auto"
    ∧ (upscaleSettings settings r).lighting = "Auto"
    ∧ (upscaleSettings settings r).wallTexture = "Auto"
    ∧ (upscaleSettings settings r).prompt = r.prompt
    ∧ (upscaleSettings settings r).imageSize = "4K"
    ∧ (r ∈ store → ∃ l, handleUpscale settings r gen newId now store = Except.ok l
        ∧ r ∈ l ∧ l.tail = store) := by
  have hcall : handleUpscale settings r gen newId now store =
      Except.ok ((⟨newId, img, r.prompt, now, true⟩ : MockupResult) :: store) := by
    unfold handleUpscale
    rw [hgen]
    simp
  refine ⟨hcall, rfl, hfresh, rfl, rfl, rfl, rfl, rfl, rfl, ?_⟩
  intro hr
  exact ⟨_, hcall, List.mem_cons_of_mem _ hr, rfl⟩

/-- C7 witness: a concrete draft result and store. -/
theorem upscale_fresh_sibling_witness :
    handleUpscale DEFAULT_SETTINGS ⟨"id0", "img0", "a loft wall", 5, false⟩
      (fun _ => Except.ok ["img4k"]) "id1" 9
      [⟨"id0", "img0", "a loft wall", 5, false⟩] =
      Except.ok [⟨"id1", "img4k", "a loft wall", 9, true⟩,
        ⟨"id0", "img0", "a loft wall", 5, false⟩] :=
  (upscale_fresh_sibling DEFAULT_SETTINGS ⟨"id0", "img0", "a loft wall", 5, false⟩
    (fun _ => Except.ok ["img4k"]) "id1" 9 [⟨"id0", "img0", "a loft wall", 5, false⟩]
    "img4k" [] rfl (by decide)).1

/-! ## Claim C1: suggestion-engine fallback -/

/-- C1 counterexample: with an API key configured, a remote call that
succeeds but whose body parses to valid JSON of the wrong shape (an
object rather than an array) makes analyzeImageForPrompts return the
empty list — not the fixed 4-element fallback the claim promises, and not
a non-empty sequence. -/
theorem suggestion_wrong_shape_counterexample :
    analyzeImageForPrompts (some "key") (Except.ok (some Json.obj)) = Except.ok []
    ∧ ([] : List Json).length = 0
    ∧ fallbackSuggestions.length = 4 :=
  ⟨rfl, rfl, rfl⟩

/-- C1 amended: with an API key configured, analyzeImageForPrompts never
propagates an error outward and always returns at most 4 suggestions; a
remote call that throws (transport error, after its retries) or whose
body is not valid JSON yields the fixed deterministic 4-element fallback,
a body parsing to a JSON array yields its first at-most-4 elements, but a
body parsing to valid JSON of a non-array shape yields the empty list
rather than the fallback. -/
theorem suggestion_fallback_amended (key : String)
    (call : Except String (Option Json)) :
    (∃ l, analyzeImageForPrompts (some key) call = Except.ok l ∧ l.length ≤ 4)
    ∧ (∀ e, call = Except.error e →
        analyzeImageForPrompts (some key) call = Except.ok fallbackSuggestions)
    ∧ (call = Except.ok none →
        analyzeImageForPrompts (some key) call = Except.ok fallbackSuggestions)
    ∧ (∀ elems, call = Except.ok (some (Json.arr elems)) →
        analyzeImageForPrompts (some key) call = Except.ok (elems.take 4))
    ∧ (∀ j, call = Except.ok (some j) → (∀ elems, j ≠ Json.arr elems) →
        analyzeImageForPrompts (some key) call = Except.ok [])
    ∧ fallbackSuggestions.length = 4 := by
  refine ⟨?_, ?_, ?_, ?_, ?_, rfl⟩
  · match call with
    | Except.error e => exact ⟨fallbackSuggestions, rfl, by decide⟩
    | Except.ok none => exact ⟨fallbackSuggestions, rfl, by decide⟩
    | Except.ok (some (Json.arr elems)) =>
      refine ⟨elems.take 4, rfl, ?_⟩
      rw [List.length_take]
      omega
    | Except.ok (some (Json.str s)) => exact ⟨[], rfl, by decide⟩
    | Except.ok (some (Json.num n)) => exact ⟨[], rfl, by decide⟩
    | Except.ok (some (Json.bool b)) => exact ⟨[], rfl, by decide⟩
    | Except.ok (some Json.null) => exact ⟨[], rfl, by decide⟩
    | Except.ok (some Json.obj) => exact ⟨[], rfl, by decide⟩
  · intro e h
    rw [h]
    rfl
  · intro h
    rw [h]
    rfl
  · intro elems h
    rw [h]
    rfl
  · intro j h hne
    rw [h]
    match j, hne with
    | Json.str s, _ => rfl
    | Json.num n, _ => rfl
    | Json.bool b, _ => rfl
    | Json.null, _ => rfl
    | Json.obj, _ => rfl
    | Json.arr elems, hne => exact absurd rfl (hne elems)

/-- C1 amended witness: a remote call that throws a transport error after
its retries yields the fixed 4-element fallback. -/
theorem suggestion_fallback_amended_witness :
    analyzeImageForPrompts (some "key") (Except.error "503 UNAVAILABLE") =
      Except.ok fallbackSuggestions :=
  (suggestion_fallback_amended "key" (Except.error "503 UNAVAILABLE")).2.1
    "503 UNAVAILABLE" rfl

/-! ## Lemmas: batch aggregation -/

/-- Flattening index-mapped singleton blocks with one empty gap at index f
lists the non-gap blocks in index order. -/
lemma flatten_map_range {β : Type} (g : Nat → List β) (hm : Nat → β) (f N : Nat)
    (hg : ∀ i, i < N → g i = if i = f then [] else [hm i]) :
    ((List.range N).map g).flatten =
      ((List.range N).filter fun i => i ≠ f).map hm := by
  induction N with
  | zero => rfl
  | succ n ih =>
    rw [List.range_succ, List.map_append, List.flatten_append, List.filter_append,
      List.map_append, ih fun i hi => hg i (by omega)]
    refine congrArg₂ _ rfl ?_
    rw [List.map_singleton, hg n (by omega)]
    rw [List.flatten_cons, List.flatten_nil, List.append_nil]
    by_cases hn : n = f
    · simp [hn]
    · simp [hn]

/-- Dropping exactly one index below N from the range leaves N - 1. -/
lemma length_filter_range_ne (N f : Nat) (h : f < N) :
    ((List.range N).filter fun i => i ≠ f).length = N - 1 := by
  induction N with
  | zero => omega
  | succ n ih =>
    rw [List.range_succ, List.filter_append, List.length_append]
    by_cases hn : n = f
    · subst hn
      have hall : ∀ i ∈ List.range n, (fun i => decide (i ≠ n)) i = true := by
        intro i hi
        have := List.mem_range.mp hi
        simpa using by omega
      rw [List.filter_eq_self.mpr hall]
      simp
    · have := ih (by omega)
      have h1 : (List.filter (fun i => decide (i ≠ f)) [n]).length = 1 := by
        simp [hn]
      omega

/-- A job whose generation call fails contributes no results. -/
lemma batchJob_error (settings : GenerationSettings)
    (frames lighting textures : List String)
    (gen : Nat → GenerationSettings → Except String (List String))
    (ids : Nat → Nat → String) (now : Nat) (i : Nat) (p : PromptEntry) (e : String)
    (h : gen i (batchSettings settings frames lighting textures p i) = Except.error e) :
    batchJob settings frames lighting textures gen ids now i p = [] := by
  unfold batchJob
  rw [h]

/-- A job whose generation call succeeds maps each returned image to a
fresh MockupResult. -/
lemma batchJob_ok (settings : GenerationSettings)
    (frames lighting textures : List String)
    (gen : Nat → GenerationSettings → Except String (List String))
    (ids : Nat → Nat → String) (now : Nat) (i : Nat) (p : PromptEntry)
    (images : List String)
    (h : gen i (batchSettings settings frames lighting textures p i) = Except.ok images) :
    batchJob settings frames lighting textures gen ids now i p =
      images.mapIdx fun k img =>
        ⟨ids i k, img, p.text, now, settings.imageSize == "4K"⟩ := by
  unfold batchJob
  rw [h]

/-! ## Claim C6: batch-empty error and aggregation -/

/-- C6: when every job's generation call fails, handleGenerateBatch
raises the batch-empty error; conversely, whenever it returns
successfully, the returned list is exactly the flattening of the per-job
result lists in job-index order, it is non-empty, and every result in it
carries the shared batch timestamp, an identifier drawn from the fresh
identifier stream at its job and slot, its job's prompt text, and the
high-res flag exactly when the base settings' imageSize is "4K" (Draft
otherwise); and as soon as one job succeeds the batch does return
successfully. -/
theorem batch_empty_error_and_aggregate (settings : GenerationSettings)
    (frames lighting textures : List String)
    (gen : Nat → GenerationSettings → Except String (List String))
    (ids : Nat → Nat → String) (now : Nat) (prompts : List PromptEntry) :
    ((∀ i (h : i < prompts.length), ∃ e,
        gen i (batchSettings settings frames lighting textures (prompts.get ⟨i, h⟩) i) =
          Except.error e) →
      handleGenerateBatch settings frames lighting textures gen ids now prompts =
        Except.error "Batch generation yielded no results.")
    ∧ (∀ l, handleGenerateBatch settings frames lighting textures gen ids now prompts =
          Except.ok l →
        l = (prompts.mapIdx (batchJob settings frames lighting textures gen ids now)).flatten
        ∧ l ≠ []
        ∧ ∀ r ∈ l, r.createdAt = now ∧ r.isHighRes = (settings.imageSize == "4K")
            ∧ ∃ i k, ∃ hi : i < prompts.length,
                r.id = ids i k ∧ r.prompt = (prompts.get ⟨i, hi⟩).text)
    ∧ ((∃ i, ∃ hi : i < prompts.length, ∃ img imgs,
          gen i (batchSettings settings frames lighting textures (prompts.get ⟨i, hi⟩) i) =
            Except.ok (img :: imgs)) →
        ∃ l, handleGenerateBatch settings frames lighting textures gen ids now prompts =
          Except.ok l) := by
  have hrange := mapIdx_eq_range_map
    (batchJob settings frames lighting textures gen ids now) prompts ⟨"", "", false⟩
  refine ⟨?_, ?_, ?_⟩
  · intro hall
    have hnil :
        (prompts.mapIdx (batchJob settings frames lighting textures gen ids now)).flatten
          = [] := by
      rw [hrange, List.flatten_eq_nil_iff]
      intro block hblock
      obtain ⟨i, hi, rfl⟩ := List.mem_map.mp hblock
      have hiN := List.mem_range.mp hi
      obtain ⟨e, he⟩ := hall i hiN
      have hgd : prompts.getD i ⟨"", "", false⟩ = prompts.get ⟨i, hiN⟩ := by
        rw [List.getD_eq_getElem _ _ hiN, List.get_eq_getElem]
      rw [hgd]
      exact batchJob_error settings frames lighting textures gen ids now i _ e he
    unfold handleGenerateBatch
    rw [hnil]
    rfl
  · intro l hl
    unfold handleGenerateBatch at hl
    by_cases hz :
        (prompts.mapIdx (batchJob settings frames lighting textures gen ids now)).flatten.length = 0
    · rw [if_pos hz] at hl
      exact absurd hl (by simp)
    · rw [if_neg hz] at hl
      have hleq : l =
          (prompts.mapIdx (batchJob settings frames lighting textures gen ids now)).flatten :=
        ((Except.ok.injEq _ _).mp hl.symm)
      subst hleq
      refine ⟨rfl, ?_, ?_⟩
      · intro hc
        rw [hc] at hz
        exact hz rfl
      · intro r hr
        rw [hrange] at hr
        obtain ⟨block, hblock, hrblock⟩ := List.mem_flatten.mp hr
        obtain ⟨i, hi, rfl⟩ := List.mem_map.mp hblock
        have hiN := List.mem_range.mp hi
        have hgd : prompts.getD i ⟨"", "", false⟩ = prompts.get ⟨i, hiN⟩ := by
          rw [List.getD_eq_getElem _ _ hiN, List.get_eq_getElem]
        rw [hgd] at hrblock
        match hgen : gen i (batchSettings settings frames lighting textures
            (prompts.get ⟨i, hiN⟩) i) with
        | Except.error e =>
          rw [batchJob_error settings frames lighting textures gen ids now i _ e hgen]
            at hrblock
          simp at hrblock
        | Except.ok images =>
          rw [batchJob_ok settings frames lighting textures gen ids now i _ images hgen,
            mapIdx_eq_range_map _ images ""] at hrblock
          obtain ⟨k, hk, rfl⟩ := List.mem_map.mp hrblock
          exact ⟨rfl, rfl, i, k, hiN, rfl, rfl⟩
  · intro hsome
    obtain ⟨i, hiN, img, imgs, hgen⟩ := hsome
    have hmem : img ∈
        (prompts.mapIdx (batchJob settings frames lighting textures gen ids now)).flatten.map
          MockupResult.imageUrl := by
      rw [hrange]
      have hgd : prompts.getD i ⟨"", "", false⟩ = prompts.get ⟨i, hiN⟩ := by
        rw [List.getD_eq_getElem _ _ hiN, List.get_eq_getElem]
      refine List.mem_map.mpr ⟨⟨ids i 0, img, (prompts.get ⟨i, hiN⟩).text, now,
        settings.imageSize == "4K"⟩, ?_, rfl⟩
      refine List.mem_flatten.mpr
        ⟨batchJob settings frames lighting textures gen ids now i (prompts.getD i ⟨"", "", false⟩),
          List.mem_map.mpr ⟨i, List.mem_range.mpr hiN, rfl⟩, ?_⟩
      rw [hgd, batchJob_ok settings frames lighting textures gen ids now i _ _ hgen,
        List.mapIdx_cons]
      exact List.mem_cons_self _ _
    have hne :
        (prompts.mapIdx (batchJob settings frames lighting textures gen ids now)).flatten.length ≠ 0 := by
      intro hc
      rw [List.length_eq_zero] at hc
      rw [hc] at hmem
      simp at hmem
    unfold handleGenerateBatch
    rw [if_neg hne]
    exact ⟨_, rfl⟩

/-- C6 witness: a two-job batch whose second job fails; the batch returns
the first job's result with the Draft flag under the default 1K settings. -/
theorem batch_empty_error_and_aggregate_witness :
    ∃ l, handleGenerateBatch DEFAULT_SETTINGS ["Auto"] ["Auto"] ["Auto"]
      (fun i _ => if i = 0 then Except.ok ["img0"] else Except.error "500")
      (fun _ _ => "uuid") 3 [⟨"1", "wall a", false⟩, ⟨"2", "wall b", false⟩] =
      Except.ok l :=
  (batch_empty_error_and_aggregate DEFAULT_SETTINGS ["Auto"] ["Auto"] ["Auto"]
    (fun i _ => if i = 0 then Except.ok ["img0"] else Except.error "500")
    (fun _ _ => "uuid") 3 [⟨"1", "wall a", false⟩, ⟨"2", "wall b", false⟩]).2.2
    ⟨0, by decide, "img0", [], rfl⟩

/-! ## Claim C5: batch with a single failing job -/

/-- C5 counterexample: in a batch with N = 1 entries in which exactly one
job's remote call always fails (and every other job — there are none —
succeeds), handleGenerateBatch does not return the N - 1 = 0 results the
claim promises: it raises the batch-empty error instead. -/
theorem batch_single_failure_counterexample :
    handleGenerateBatch DEFAULT_SETTINGS ["Auto"] ["Auto"] ["Auto"]
      (fun _ _ => Except.error "500 Internal") (fun _ _ => "uuid") 0
      [⟨"1", "a gallery wall", false⟩] =
      Except.error "Batch generation yielded no results." := by
  rfl

/-- C5 amended: in a batch of N ≥ 2 prompt entries in which exactly the
job at index f always fails and every other job succeeds with one image,
handleGenerateBatch returns successfully with exactly N - 1 results,
listed in job-index order among the successes (the result at each
position comes from the next non-failing job index), and does not
raise. -/
theorem batch_partial_failure (settings : GenerationSettings)
    (frames lighting textures : List String)
    (gen : Nat → GenerationSettings → Except String (List String))
    (ids : Nat → Nat → String) (now : Nat) (prompts : List PromptEntry)
    (f : Nat) (im : Nat → String)
    (hN : 2 ≤ prompts.length) (hf : f < prompts.length)
    (hfail : ∃ e, gen f
        (batchSettings settings frames lighting textures
          (prompts.getD f ⟨"", "", false⟩) f) = Except.error e)
    (hsucc : ∀ i, i < prompts.length → i ≠ f →
      gen i (batchSettings settings frames lighting textures
        (prompts.getD i ⟨"", "", false⟩) i) = Except.ok [im i]) :
    handleGenerateBatch settings frames lighting textures gen ids now prompts =
      Except.ok (((List.range prompts.length).filter fun i => i ≠ f).map fun i =>
        (⟨ids i 0, im i, (prompts.getD i ⟨"", "", false⟩).text, now,
          settings.imageSize == "4K"⟩ : MockupResult))
    ∧ (((List.range prompts.length).filter fun i => i ≠ f).map fun i =>
        (⟨ids i 0, im i, (prompts.getD i ⟨"", "", false⟩).text, now,
          settings.imageSize == "4K"⟩ : MockupResult)).length = prompts.length - 1 := by
  have hlen : (((List.range prompts.length).filter fun i => i ≠ f).map fun i =>
      (⟨ids i 0, im i, (prompts.getD i ⟨"", "", false⟩).text, now,
        settings.imageSize == "4K"⟩ : MockupResult)).length = prompts.length - 1 := by
    rw [List.length_map]
    exact length_filter_range_ne prompts.length f hf
  have hflat :
      (prompts.mapIdx (batchJob settings frames lighting textures gen ids now)).flatten =
      ((List.range prompts.length).filter fun i => i ≠ f).map fun i =>
        (⟨ids i 0, im i, (prompts.getD i ⟨"", "", false⟩).text, now,
          settings.imageSize == "4K"⟩ : MockupResult) := by
    rw [mapIdx_eq_range_map
      (batchJob settings frames lighting textures gen ids now) prompts ⟨"", "", false⟩]
    refine flatten_map_range _ _ f prompts.length ?_
    intro i hi
    by_cases hif : i = f
    · subst hif
      obtain ⟨e, he⟩ := hfail
      rw [if_pos rfl]
      exact batchJob_error settings frames lighting textures gen ids now i _ e he
    · rw [if_neg hif]
      rw [batchJob_ok settings frames lighting textures gen ids now i _ [im i]
        (hsucc i hi hif)]
      rfl
  constructor
  · unfold handleGenerateBatch
    rw [hflat]
    rw [if_neg (by omega)]
  · exact hlen

/-- C5 amended witness: a three-entry batch whose middle job always
fails returns the two flanking results in job order. -/
theorem batch_partial_failure_witness :
    handleGenerateBatch DEFAULT_SETTINGS ["Auto"] ["Auto"] ["Auto"]
      (fun i _ => if i = 1 then Except.error "500" else Except.ok ["img"]) (fun _ _ => "u")
      7 [⟨"1", "a", false⟩, ⟨"2", "b", false⟩, ⟨"3", "c", false⟩] =
      Except.ok [⟨"u", "img", "a", 7, false⟩, ⟨"u", "img", "c", 7, false⟩] := by
  have h := (batch_partial_failure DEFAULT_SETTINGS ["Auto"] ["Auto"] ["Auto"]
    (fun i _ => if i = 1 then Except.error "500" else Except.ok ["img"]) (fun _ _ => "u")
    7 [⟨"1", "a", false⟩, ⟨"2", "b", false⟩, ⟨"3", "c", false⟩] 1 (fun _ => "img")
    (by decide) (by decide) ⟨"500", rfl⟩
    (by intro i hi hne
        simp only [List.length_cons, List.length_nil] at hi
        interval_cases i
        · rfl
        · exact absurd rfl hne
        · rfl)).1
  rw [h]
  rfl

/-! ## Lemmas: word containment in composed prompts

A word all of whose characters are alphabetic cannot straddle an append
boundary next to a non-alphabetic character, so word-freeness of a
composed prompt reduces to word-freeness of its parts. -/

/-- An all-alphabetic word is not an infix of an append when it is an
infix of neither part and at least one side of the boundary ends or
begins with a non-alphabetic character. -/
lemma not_infix_append {w a b : List Char}
    (hw : ∀ c ∈ w, c.isAlpha = true)
    (hbd : (∀ c, a.getLast? = some c → c.isAlpha = false) ∨
           (∀ c, b.head? = some c → c.isAlpha = false))
    (ha : ¬ w <:+: a) (hb : ¬ w <:+: b) : ¬ w <:+: a ++ b := by
  rintro ⟨s, t, hst⟩
  rcases List.append_eq_append_iff.mp hst with ⟨a', ha1, _⟩ | ⟨c', hc1, hc2⟩
  · exact ha ⟨s, a', ha1.symm⟩
  · rcases List.append_eq_append_iff.mp hc1 with ⟨a₂, ha2, hw2⟩ | ⟨c₂, _, hw2⟩
    · by_cases hA : a₂ = []
      · subst hA
        rw [List.nil_append] at hw2
        exact hb ⟨[], t, by rw [hc2, ← hw2]; simp⟩
      · by_cases hC : c' = []
        · subst hC
          rw [List.append_nil] at hw2
          exact ha ⟨s, [], by rw [ha2, ← hw2, List.append_nil]⟩
        · rcases hbd with hL | hR
          · have hlast : a.getLast? = a₂.getLast? := by
              rw [ha2]
              exact List.getLast?_append_of_ne_nil s hA
            have hmem : a₂.getLast hA ∈ w := by
              rw [hw2]
              exact List.mem_append_left _ (List.getLast_mem hA)
            have htrue := hw _ hmem
            have hfalse := hL _ (by rw [hlast, List.getLast?_eq_getLast a₂ hA])
            rw [htrue] at hfalse
            exact Bool.noConfusion hfalse
          · have hhead : b.head? = c'.head? := by
              rw [hc2]
              exact List.head?_append_of_ne_nil c' hC
            have hmem : c'.head hC ∈ w := by
              rw [hw2]
              exact List.mem_append_right _ (List.head_mem hC)
            have htrue := hw _ hmem
            have hfalse := hR _ (by rw [hhead, List.head?_eq_head hC])
            rw [htrue] at hfalse
            exact Bool.noConfusion hfalse
    · exact hb ⟨c₂, t, by rw [hc2, ← hw2]⟩

/-- Boundary fact from the known last character of a fixed string. -/
lemma last_bd_concrete {x : List Char} {c₀ : Char} (hx : x.getLast? = some c₀)
    (hc₀ : c₀.isAlpha = false) :
    ∀ c, x.getLast? = some c → c.isAlpha = false := by
  intro c hc
  rw [hx] at hc
  exact Option.some.inj hc ▸ hc₀

/-- Boundary fact from the known head character of a fixed string. -/
lemma head_bd_concrete {x : List Char} {c₀ : Char} (hx : x.head? = some c₀)
    (hc₀ : c₀.isAlpha = false) :
    ∀ c, x.head? = some c → c.isAlpha = false := by
  intro c hc
  rw [hx] at hc
  exact Option.some.inj hc ▸ hc₀

/-- A head boundary fact survives appending to the right. -/
lemma head_bd_append {x : List Char} (y : List Char) (hne : x ≠ [])
    (hx : ∀ c, x.head? = some c → c.isAlpha = false) :
    ∀ c, (x ++ y).head? = some c → c.isAlpha = false := by
  intro c hc
  rw [List.head?_append_of_ne_nil x hne] at hc
  exact hx c hc

/-- An infix of a list is an infix of any left-extension of it. -/
lemma infix_of_infix_right {l r : List Char} (x : List Char) (h : l <:+: r) :
    l <:+: x ++ r := by
  obtain ⟨s, t, rfl⟩ := h
  exact ⟨x ++ s, t, by simp⟩

/-- A list is an infix of itself extended on the right. -/
lemma infix_self_append {α : Type} (l r : List α) : l <:+: l ++ r := ⟨[], r, by simp⟩

/-- A list is an infix of x ++ (itself ++ r). -/
lemma infix_x_l_r {α : Type} (x l r : List α) : l <:+: x ++ (l ++ r) :=
  ⟨x, r, by simp⟩

/-- envContext when both lighting and texture are "Auto": the inference
sentence. -/
lemma envContext_both_auto (s : GenerationSettings)
    (hL : s.lighting = "Auto") (hT : s.wallTexture = "Auto") :
    envContext s =
      "Lighting and Wall Material should be inferred naturally from the scene description." := by
  unfold envContext
  rw [hL, hT]
  simp

/-- envContext with only lighting selected. -/
lemma envContext_light_only (s : GenerationSettings)
    (hL : s.lighting ≠ "Auto") (hT : s.wallTexture = "Auto") :
    envContext s = "Lighting Condition: " ++ s.lighting ++ ". " := by
  unfold envContext
  rw [hT, if_pos hL]
  simp only [ne_eq, not_true_eq_false, if_false, String.append_empty]
  rw [if_neg]
  intro h
  have hd := congrArg String.data h
  simp [String.data_append] at hd

/-- envContext with only wall texture selected. -/
lemma envContext_texture_only (s : GenerationSettings)
    (hL : s.lighting = "Auto") (hT : s.wallTexture ≠ "Auto") :
    envContext s = "Wall Material: " ++ s.wallTexture ++ ". " := by
  unfold envContext
  rw [hL, if_pos hT]
  simp only [ne_eq, not_true_eq_false, if_false, String.empty_append]
  rw [if_neg]
  intro h
  have hd := congrArg String.data h
  simp [String.data_append] at hd

/-- envContext with both lighting and wall texture selected. -/
lemma envContext_both (s : GenerationSettings)
    (hL : s.lighting ≠ "Auto") (hT : s.wallTexture ≠ "Auto") :
    envContext s = ("Lighting Condition: " ++ s.lighting ++ ". ") ++
      ("Wall Material: " ++ s.wallTexture ++ ". ") := by
  unfold envContext
  rw [if_pos hL, if_pos hT]
  rw [if_neg]
  intro h
  have hd := congrArg String.data h
  simp [String.data_append] at hd

/-- frameContext in the "None" branch. -/
lemma frameContext_none (s : GenerationSettings) (h : s.frameStyle = "None") :
    frameContext s =
      "The attached image is taped or pasted directly onto the wall as a " ++ sizeContext s ++
        " poster. Show paper texture, slight curling at corners, and surface shadows falling across the image." := by
  unfold frameContext
  rw [if_pos h]

/-- frameContext in the "Auto" branch. -/
lemma frameContext_auto (s : GenerationSettings) (h : s.frameStyle = "Auto") :
    frameContext s =
      "The attached image is professionally framed in a style that perfectly matches the environment's aesthetic (" ++
        sizeContext s ++ " size). Include realistic glass reflections and frame shadows." := by
  unfold frameContext
  rw [h]
  rw [if_neg (by decide), if_pos rfl]

/-- frameContext in the named-style branch. -/
lemma frameContext_named (s : GenerationSettings) (h1 : s.frameStyle ≠ "None")
    (h2 : s.frameStyle ≠ "Auto") :
    frameContext s =
      "The attached image is physically framed in a " ++ s.frameStyle ++ " frame (" ++
        sizeContext s ++ " size) hanging on the wall. Include realistic glass reflections and frame shadows." := by
  unfold frameContext
  rw [if_neg h1, if_neg h2]

/-- No all-alphabetic word occurs in the environment clause when it
occurs in none of its parts (the selected lighting and texture values
matter only when they are not "Auto", since "Auto" is never emitted). -/
lemma wordFree_envContext {w : String} (s : GenerationSettings)
    (hw : ∀ c ∈ w.data, c.isAlpha = true)
    (hL : s.lighting ≠ "Auto" → WordFree w s.lighting)
    (hT : s.wallTexture ≠ "Auto" → WordFree w s.wallTexture)
    (hfill : WordFree w "Lighting and Wall Material should be inferred naturally from the scene description.")
    (hlc : WordFree w "Lighting Condition: ")
    (hwm : WordFree w "Wall Material: ")
    (hds : WordFree w ". ") :
    WordFree w (envContext s) := by
  by_cases hLA : s.lighting = "Auto" <;> by_cases hTA : s.wallTexture = "Auto"
  · rw [envContext_both_auto s hLA hTA]
    exact hfill
  · have hTf := hT hTA
    rw [envContext_texture_only s hLA hTA]
    unfold WordFree ContainsSub at hwm hds hTf ⊢
    rw [String.data_append, String.data_append, List.append_assoc]
    refine not_infix_append hw (Or.inl (last_bd_concrete
      (by decide : ("Wall Material: ").data.getLast? = some ' ') (by decide))) hwm ?_
    exact not_infix_append hw (Or.inr (head_bd_concrete
      (by decide : (". ").data.head? = some '.') (by decide))) hTf hds
  · have hLf := hL hLA
    rw [envContext_light_only s hLA hTA]
    unfold WordFree ContainsSub at hlc hds hLf ⊢
    rw [String.data_append, String.data_append, List.append_assoc]
    refine not_infix_append hw (Or.inl (last_bd_concrete
      (by decide : ("Lighting Condition: ").data.getLast? = some ' ') (by decide))) hlc ?_
    exact not_infix_append hw (Or.inr (head_bd_concrete
      (by decide : (". ").data.head? = some '.') (by decide))) hLf hds
  · have hLf := hL hLA
    have hTf := hT hTA
    rw [envContext_both s hLA hTA]
    unfold WordFree ContainsSub at hlc hwm hds hLf hTf ⊢
    simp only [String.data_append, List.append_assoc]
    refine not_infix_append hw (Or.inl (last_bd_concrete
      (by decide : ("Lighting Condition: ").data.getLast? = some ' ') (by decide))) hlc ?_
    refine not_infix_append hw (Or.inr (head_bd_append _
      (by decide : (". ").data ≠ [])
      (head_bd_concrete (by decide : (". ").data.head? = some '.') (by decide)))) hLf ?_
    refine not_infix_append hw (Or.inl (last_bd_concrete
      (by decide : (". ").data.getLast? = some ' ') (by decide))) hds ?_
    refine not_infix_append hw (Or.inl (last_bd_concrete
      (by decide : ("Wall Material: ").data.getLast? = some ' ') (by decide))) hwm ?_
    exact not_infix_append hw (Or.inr (head_bd_concrete
      (by decide : (". ").data.head? = some '.') (by decide))) hTf hds

/-- No all-alphabetic word occurs in the "None" placement clause when it
occurs in neither fixed part nor the print size. -/
lemma wordFree_frameContext_none {w : String} (s : GenerationSettings)
    (hw : ∀ c ∈ w.data, c.isAlpha = true) (h : s.frameStyle = "None")
    (hPS : WordFree w (sizeContext s))
    (h1 : WordFree w "The attached image is taped or pasted directly onto the wall as a ")
    (h2 : WordFree w " poster. Show paper texture, slight curling at corners, and surface shadows falling across the image.") :
    WordFree w (frameContext s) := by
  rw [frameContext_none s h]
  unfold WordFree ContainsSub at h1 h2 hPS ⊢
  rw [String.data_append, String.data_append, List.append_assoc]
  refine not_infix_append hw (Or.inl (last_bd_concrete
    (by decide : ("The attached image is taped or pasted directly onto the wall as a ").data.getLast? = some ' ')
    (by decide))) h1 ?_
  exact not_infix_append hw (Or.inr (head_bd_concrete
    (by decide : (" poster. Show paper texture, slight curling at corners, and surface shadows falling across the image.").data.head? = some ' ')
    (by decide))) hPS h2

/-- No all-alphabetic word occurs in the "Auto" placement clause when it
occurs in neither fixed part nor the print size. -/
lemma wordFree_frameContext_auto {w : String} (s : GenerationSettings)
    (hw : ∀ c ∈ w.data, c.isAlpha = true) (h : s.frameStyle = "Auto")
    (hPS : WordFree w (sizeContext s))
    (h1 : WordFree w "The attached image is professionally framed in a style that perfectly matches the environment's aesthetic (")
    (h2 : WordFree w " size). Include realistic glass reflections and frame shadows.") :
    WordFree w (frameContext s) := by
  rw [frameContext_auto s h]
  unfold WordFree ContainsSub at h1 h2 hPS ⊢
  rw [String.data_append, String.data_append, List.append_assoc]
  refine not_infix_append hw (Or.inl (last_bd_concrete
    (by decide : ("The attached image is professionally framed in a style that perfectly matches the environment's aesthetic (").data.getLast? = some '(')
    (by decide))) h1 ?_
  exact not_infix_append hw (Or.inr (head_bd_concrete
    (by decide : (" size). Include realistic glass reflections and frame shadows.").data.head? = some ' ')
    (by decide))) hPS h2

/-- No all-alphabetic word occurs in the composed final prompt when it
occurs in none of its fixed clauses, the user scene prompt, the negative
prompt, the environment clause or the placement clause. -/
lemma wordFree_finalPrompt {w : String} (s : GenerationSettings)
    (hw : ∀ c ∈ w.data, c.isAlpha = true)
    (hA1 : WordFree w "\n    ")
    (hA2 : WordFree w qualityPrefix)
    (hA3 : WordFree w " \n    SCENE: ")
    (hP : WordFree w s.prompt)
    (hA4 : WordFree w ". \n    DETAILS: ")
    (hE : WordFree w (envContext s))
    (hA5 : WordFree w " \n    PLACEMENT: ")
    (hF : WordFree w (frameContext s))
    (hA6 : WordFree w " \n    PHYSICS: ")
    (hA7 : WordFree w physicalInteraction)
    (hA8 : WordFree w colorClause)
    (hA9 : WordFree w " Do NOT include: ")
    (hN : WordFree w s.negativePrompt)
    (hA10 : WordFree w ".") :
    WordFree w (finalPrompt s) := by
  unfold WordFree ContainsSub at hA1 hA2 hA3 hP hA4 hE hA5 hF hA6 hA7 hA8 hA9 hN hA10 ⊢
  unfold finalPrompt
  by_cases hng : (s.negativePrompt.data.any fun c => !c.isWhitespace) = true
  · rw [if_pos hng]
    simp only [finalPromptBase, String.data_append, List.append_assoc]
    refine not_infix_append hw (Or.inl (last_bd_concrete
      (by decide : ("\n    ").data.getLast? = some ' ') (by decide))) hA1 ?_
    refine not_infix_append hw (Or.inl (last_bd_concrete
      (by decide : qualityPrefix.data.getLast? = some ' ') (by decide))) hA2 ?_
    refine not_infix_append hw (Or.inl (last_bd_concrete
      (by decide : (" \n    SCENE: ").data.getLast? = some ' ') (by decide))) hA3 ?_
    refine not_infix_append hw (Or.inr (head_bd_append _
      (by decide : (". \n    DETAILS: ").data ≠ [])
      (head_bd_concrete (by decide : (". \n    DETAILS: ").data.head? = some '.')
        (by decide)))) hP ?_
    refine not_infix_append hw (Or.inl (last_bd_concrete
      (by decide : (". \n    DETAILS: ").data.getLast? = some ' ') (by decide))) hA4 ?_
    refine not_infix_append hw (Or.inr (head_bd_append _
      (by decide : (" \n    PLACEMENT: ").data ≠ [])
      (head_bd_concrete (by decide : (" \n    PLACEMENT: ").data.head? = some ' ')
        (by decide)))) hE ?_
    refine not_infix_append hw (Or.inl (last_bd_concrete
      (by decide : (" \n    PLACEMENT: ").data.getLast? = some ' ') (by decide))) hA5 ?_
    refine not_infix_append hw (Or.inr (head_bd_append _
      (by decide : (" \n    PHYSICS: ").data ≠ [])
      (head_bd_concrete (by decide : (" \n    PHYSICS: ").data.head? = some ' ')
        (by decide)))) hF ?_
    refine not_infix_append hw (Or.inl (last_bd_concrete
      (by decide : (" \n    PHYSICS: ").data.getLast? = some ' ') (by decide))) hA6 ?_
    refine not_infix_append hw (Or.inl (last_bd_concrete
      (by decide : physicalInteraction.data.getLast? = some '.') (by decide))) hA7 ?_
    refine not_infix_append hw (Or.inl (last_bd_concrete
      (by decide : colorClause.data.getLast? = some ' ') (by decide))) hA8 ?_
    refine not_infix_append hw (Or.inl (last_bd_concrete
      (by decide : (" Do NOT include: ").data.getLast? = some ' ') (by decide))) hA9 ?_
    exact not_infix_append hw (Or.inr (head_bd_concrete
      (by decide : (".").data.head? = some '.') (by decide))) hN hA10
  · rw [if_neg hng]
    simp only [finalPromptBase, String.data_append, List.append_assoc]
    refine not_infix_append hw (Or.inl (last_bd_concrete
      (by decide : ("\n    ").data.getLast? = some ' ') (by decide))) hA1 ?_
    refine not_infix_append hw (Or.inl (last_bd_concrete
      (by decide : qualityPrefix.data.getLast? = some ' ') (by decide))) hA2 ?_
    refine not_infix_append hw (Or.inl (last_bd_concrete
      (by decide : (" \n    SCENE: ").data.getLast? = some ' ') (by decide))) hA3 ?_
    refine not_infix_append hw (Or.inr (head_bd_append _
      (by decide : (". \n    DETAILS: ").data ≠ [])
      (head_bd_concrete (by decide : (". \n    DETAILS: ").data.head? = some '.')
        (by decide)))) hP ?_
    refine not_infix_append hw (Or.inl (last_bd_concrete
      (by decide : (". \n    DETAILS: ").data.getLast? = some ' ') (by decide))) hA4 ?_
    refine not_infix_append hw (Or.inr (head_bd_append _
      (by decide : (" \n    PLACEMENT: ").data ≠ [])
      (head_bd_concrete (by decide : (" \n    PLACEMENT: ").data.head? = some ' ')
        (by decide)))) hE ?_
    refine not_infix_append hw (Or.inl (last_bd_concrete
      (by decide : (" \n    PLACEMENT: ").data.getLast? = some ' ') (by decide))) hA5 ?_
    refine not_infix_append hw (Or.inr (head_bd_append _
      (by decide : (" \n    PHYSICS: ").data ≠ [])
      (head_bd_concrete (by decide : (" \n    PHYSICS: ").data.head? = some ' ')
        (by decide)))) hF ?_
    refine not_infix_append hw (Or.inl (last_bd_concrete
      (by decide : (" \n    PHYSICS: ").data.getLast? = some ' ') (by decide))) hA6 ?_
    exact not_infix_append hw (Or.inl (last_bd_concrete
      (by decide : physicalInteraction.data.getLast? = some '.') (by decide))) hA7 hA8

/-! ## Claim C2: frame-style case split of the composed prompt -/

/-- C2 counterexample: for the repository's default settings with frame
style "None", the composed generation prompt does contain glass-reflection
language — the fixed physical-interaction clause "If there is glass, show
subtle reflections OVER the artwork." is included for every frame style —
so the claim's "None ⇒ no framing/glass-reflection language" fails. -/
theorem compose_none_contains_glass_counterexample :
    ({ DEFAULT_SETTINGS with frameStyle := "None" } : GenerationSettings).frameStyle = "None"
    ∧ ContainsSub "glass" (finalPrompt { DEFAULT_SETTINGS with frameStyle := "None" })
    ∧ ContainsSub "reflections" (finalPrompt { DEFAULT_SETTINGS with frameStyle := "None" }) :=
  ⟨rfl, by decide, by decide⟩

/-- C2 amended: the frame-style case split of the composed prompt holds
with "framing language" read as an occurrence of the word "frame" and
with the proviso that the user-controlled free texts (scene prompt,
negative prompt, and the selected print-size, lighting and texture
values) do not themselves contain the word in question: with frame style
"None" the composed text never contains "frame" (though it always
contains the fixed conditional glass-reflection physics clause); with a
named style the composed text contains that style's name; with "Auto" the
composed text does not contain the literal word "Auto". -/
theorem compose_frame_style_cases (s : GenerationSettings) :
    (s.frameStyle = "None" →
      WordFree "frame" s.prompt → WordFree "frame" s.negativePrompt →
      WordFree "frame" (sizeContext s) →
      (s.lighting ≠ "Auto" → WordFree "frame" s.lighting) →
      (s.wallTexture ≠ "Auto" → WordFree "frame" s.wallTexture) →
      WordFree "frame" (finalPrompt s))
    ∧ (s.frameStyle ≠ "None" → s.frameStyle ≠ "Auto" →
        ContainsSub s.frameStyle (finalPrompt s))
    ∧ (s.frameStyle = "Auto" →
      WordFree "Auto" s.prompt → WordFree "Auto" s.negativePrompt →
      WordFree "Auto" (sizeContext s) →
      (s.lighting ≠ "Auto" → WordFree "Auto" s.lighting) →
      (s.wallTexture ≠ "Auto" → WordFree "Auto" s.wallTexture) →
      WordFree "Auto" (finalPrompt s)) := by
  refine ⟨?_, ?_, ?_⟩
  · intro h hP hNP hPS hL hT
    exact wordFree_finalPrompt s (by decide) (by decide) (by decide) (by decide) hP
      (by decide)
      (wordFree_envContext s (by decide) hL hT (by decide) (by decide) (by decide)
        (by decide))
      (by decide)
      (wordFree_frameContext_none s (by decide) h hPS (by decide) (by decide))
      (by decide) (by decide) (by decide) (by decide) hNP (by decide)
  · intro h1 h2
    have hfc : s.frameStyle.data <:+: (frameContext s).data := by
      rw [frameContext_named s h1 h2]
      simp only [String.data_append, List.append_assoc]
      exact infix_x_l_r ("The attached image is physically framed in a ").data _ _
    have hinf : (frameContext s).data <:+: (finalPrompt s).data := by
      unfold finalPrompt
      by_cases hng : (s.negativePrompt.data.any fun c => !c.isWhitespace) = true
      · rw [if_pos hng]
        simp only [finalPromptBase, String.data_append, List.append_assoc]
        exact infix_of_infix_right ("\n    ").data (infix_of_infix_right qualityPrefix.data
          (infix_of_infix_right (" \n    SCENE: ").data (infix_of_infix_right s.prompt.data
            (infix_of_infix_right (". \n    DETAILS: ").data
              (infix_of_infix_right (envContext s).data
                (infix_of_infix_right (" \n    PLACEMENT: ").data
                  (infix_self_append _ _)))))))
      · rw [if_neg hng]
        simp only [finalPromptBase, String.data_append, List.append_assoc]
        exact infix_of_infix_right ("\n    ").data (infix_of_infix_right qualityPrefix.data
          (infix_of_infix_right (" \n    SCENE: ").data (infix_of_infix_right s.prompt.data
            (infix_of_infix_right (". \n    DETAILS: ").data
              (infix_of_infix_right (envContext s).data
                (infix_of_infix_right (" \n    PLACEMENT: ").data
                  (infix_self_append _ _)))))))
    exact hfc.trans hinf
  · intro h hP hNP hPS hL hT
    exact wordFree_finalPrompt s (by decide) (by decide) (by decide) (by decide) hP
      (by decide)
      (wordFree_envContext s (by decide) hL hT (by decide) (by decide) (by decide)
        (by decide))
      (by decide)
      (wordFree_frameContext_auto s (by decide) h hPS (by decide) (by decide))
      (by decide) (by decide) (by decide) (by decide) hNP (by decide)

/-- C2 amended witness: the default settings with frame style "None"
(scene prompt, negative prompt, print size and "Auto" selections all free
of the word "frame") compose to a text with no occurrence of "frame". -/
theorem compose_frame_style_cases_witness :
    WordFree "frame" (finalPrompt { DEFAULT_SETTINGS with frameStyle := "None" }) :=
  (compose_frame_style_cases { DEFAULT_SETTINGS with frameStyle := "None" }).1 rfl
    (by decide) (by decide) (by decide)
    (fun hL => absurd rfl hL) (fun hT => absurd rfl hT)

end MockupMagic
